import Mathlib

/-
  Verification development for the sharon-widget animation core
  (src/src/main.js).  The JavaScript animation state machine, overlay
  timers and pose blending are embedded shallowly: numbers become Rat,
  the mutable animationState object becomes an explicit AnimState record,
  the VRM rig becomes a Rig record of optional joints plus an expression
  weight table, and Math.sin / Math.PI are passed in as opaque parameters
  since no verified property depends on their values.
-/

namespace SharonWidget

/-- JS truthiness fallback for numbers: a || b is b when a is 0. -/
def jsOr (a b : ℚ) : ℚ := if a = 0 then b else a

/-- JS truthiness fallback applied to a possibly-undefined number. -/
def jsOrOpt (a : Option ℚ) (b : ℚ) : ℚ :=
  match a with
  | none => b
  | some v => jsOr v b

/-- The ANIMATION_STATE enumeration of main.js. -/
inductive AnimMode where
  | idle
  | chat
  | twirl
  | transition
deriving DecidableEq

/-- The twirlPhase string field of main.js, one of twirl, smile, wink, return. -/
inductive TwirlPhase where
  | twirl
  | smile
  | wink
  | ret
deriving DecidableEq

/-- The mutable animationState object of main.js, lines 88-123. -/
structure AnimState where
  breathPhase : ℚ
  blinkTimer : ℚ
  nextBlinkTime : ℚ
  isBlinking : Bool
  blinkProgress : ℚ
  headSwayPhase : ℚ
  bodySwayPhase : ℚ
  expressionTimer : ℚ
  nextExpressionTime : ℚ
  currentExpression : Option String
  expressionWeight : ℚ
  expressionFadeDir : Int
  state : AnimMode
  currentIdleIndex : Nat
  idleTimer : ℚ
  idleDuration : ℚ
  currentChatIndex : Nat
  chatTimer : ℚ
  twirlTimer : ℚ
  twirlPhase : TwirlPhase
  twirlRotation : ℚ
  isBeingDragged : Bool
  wasDragged : Bool
  dragEndTimer : ℚ
deriving DecidableEq

/-- One skeletal joint handle: three-axis Euler angles plus the vertical
position used for the hips. -/
structure Joint where
  rotX : ℚ
  rotY : ℚ
  rotZ : ℚ
  posY : ℚ
deriving DecidableEq

/-- The VRM rig as seen by main.js: optional normalized bone nodes, an
expression manager flag, the expression weight table, the set of
expressions the model exposes (expressionMap membership) and the lookAt
capability flag. -/
structure Rig where
  hips : Option Joint
  spine : Option Joint
  chest : Option Joint
  head : Option Joint
  leftUpperArm : Option Joint
  rightUpperArm : Option Joint
  leftLowerArm : Option Joint
  rightLowerArm : Option Joint
  hasExpressionManager : Bool
  exprs : String → ℚ
  exposed : String → Bool

/-- expressionManager.setValue: overwrite one named expression weight.
Call sites in main.js guard on the manager being present, so the guard
stays at each call site below. -/
def Rig.setExpr (r : Rig) (name : String) (w : ℚ) : Rig :=
  { r with exprs := fun n => if n = name then w else r.exprs n }

/-- True exactly on Except.error, used to state that a frame raises. -/
def isError {ε α : Type} : Except ε α → Bool
  | Except.error _ => true
  | Except.ok _ => false

/- String constants for expression and emotion names. -/

def exprBlink : String := "blink"

def exprHappy : String := "happy"

def exprRelaxed : String := "relaxed"

def exprAngry : String := "angry"

def exprSad : String := "sad"

def exprNeutral : String := "neutral"

-- ── Interaction state machine: drag / twirl trigger ──

/-- The module-level drag tracking variables of main.js lines 874-875. -/
structure DragState where
  dragStartTime : ℚ
  isDragging : Bool
deriving DecidableEq

/-- triggerTwirlAnimation, main.js lines 615-622. -/
def triggerTwirlAnimation (s : AnimState) : AnimState :=
  { s with
    state := AnimMode.twirl
    twirlTimer := 0
    twirlPhase := TwirlPhase.twirl
    twirlRotation := 0 }

/-- The canvas mousedown handler, main.js lines 877-889: on a primary
button press outside the chat container, record the press time and enter
the dragging state.  The window panning call is external. -/
def mousedownHandler (buttons : Nat) (onChatArea : Bool) (now : ℚ)
    (d : DragState) (s : AnimState) : DragState × AnimState :=
  if onChatArea then (d, s)
  else if buttons = 1 then
    ({ dragStartTime := now, isDragging := true },
     { s with isBeingDragged := true })
  else (d, s)

/-- The window mouseup handler, main.js lines 892-905: measures the press
duration and triggers the twirl exactly when it exceeds 100 ms and the
animator is not already in the twirl state. -/
def mouseupHandler (now : ℚ) (d : DragState) (s : AnimState) :
    DragState × AnimState :=
  if d.isDragging then
    let dragDuration := now - d.dragStartTime
    let d1 : DragState := { d with isDragging := false }
    let s1 := { s with isBeingDragged := false, wasDragged := true, dragEndTimer := 0 }
    if dragDuration > 100 ∧ s1.state ≠ AnimMode.twirl then
      (d1, triggerTwirlAnimation s1)
    else (d1, s1)
  else (d, s)

/-- A concrete quiescent animator state used by several witnesses. -/
def baseAnimState : AnimState where
  breathPhase := 0
  blinkTimer := 1
  nextBlinkTime := 3
  isBlinking := false
  blinkProgress := 0
  headSwayPhase := 0
  bodySwayPhase := 0
  expressionTimer := 0
  nextExpressionTime := 7
  currentExpression := none
  expressionWeight := 0
  expressionFadeDir := 0
  state := AnimMode.idle
  currentIdleIndex := 0
  idleTimer := 0
  idleDuration := 10
  currentChatIndex := 0
  chatTimer := 0
  twirlTimer := 0
  twirlPhase := TwirlPhase.twirl
  twirlRotation := 0
  isBeingDragged := false
  wasDragged := false
  dragEndTimer := 0

/-- A concrete state mid-spin. -/
def sampleTwirlState : AnimState :=
  { baseAnimState with state := AnimMode.twirl, twirlTimer := 1/2 }

-- ── Theorems for C1 (twirl trigger threshold) and C8 (re-entrancy) ──

/-- C1 counterexample: the claim says a 50 ms press/release pair triggers
Spinning.  On the code, a gesture of duration 50 ms (press at 0, release
at 50) leaves the animator in the idle state: the guard requires a
duration strictly greater than 100 ms. -/
theorem C1_counterexample :
    (mouseupHandler 50 { dragStartTime := 0, isDragging := true } baseAnimState).2.state
      = AnimMode.idle := by
  norm_num [mouseupHandler, baseAnimState]
  try decide

/-- C1 amended: the spin is triggered exactly when the press duration
exceeds 100 ms and the animator is not already twirling; a duration of
at most 100 ms never changes the animator mode. -/
theorem C1_trigger_amended (start now : ℚ) (s : AnimState) :
    (now - start > 100 → s.state ≠ AnimMode.twirl →
      (mouseupHandler now { dragStartTime := start, isDragging := true } s).2.state
        = AnimMode.twirl) ∧
    (now - start ≤ 100 →
      (mouseupHandler now { dragStartTime := start, isDragging := true } s).2.state
        = s.state) := by
  constructor
  · intro hgt hne
    unfold mouseupHandler triggerTwirlAnimation
    simp only [if_true]
    rw [if_pos]
    exact ⟨hgt, hne⟩
  · intro hle
    unfold mouseupHandler
    simp only [if_true]
    rw [if_neg]
    intro hcon
    exact absurd hcon.1 (not_lt.mpr hle)

/-- C1 witness: a 300 ms gesture from idle triggers the twirl, and a 50 ms
gesture leaves the mode unchanged. -/
theorem C1_trigger_amended_witness :
    (mouseupHandler 300 { dragStartTime := 0, isDragging := true } baseAnimState).2.state
      = AnimMode.twirl ∧
    (mouseupHandler 50 { dragStartTime := 0, isDragging := true } baseAnimState).2.state
      = baseAnimState.state :=
  ⟨(C1_trigger_amended 0 300 baseAnimState).1 (by norm_num) (by norm_num [baseAnimState]; try decide),
   (C1_trigger_amended 0 50 baseAnimState).2 (by norm_num)⟩

/-- C8: a trigger arriving while the animator is already in the twirl
state (any of its phases, covering both the spinning and the recovering
half of the interaction) is ignored: the mode, the elapsed twirl timer,
the phase and the accumulated rotation are all unchanged, and nothing is
queued or raised. -/
theorem C8_reentrant_trigger_ignored (now : ℚ) (d : DragState) (s : AnimState)
    (h : s.state = AnimMode.twirl) :
    (mouseupHandler now d s).2.state = AnimMode.twirl ∧
    (mouseupHandler now d s).2.twirlTimer = s.twirlTimer ∧
    (mouseupHandler now d s).2.twirlPhase = s.twirlPhase ∧
    (mouseupHandler now d s).2.twirlRotation = s.twirlRotation := by
  unfold mouseupHandler
  rcases hd : d.isDragging with _ | _
  · simp [hd, h]
  · simp only [hd, if_true]
    rw [if_neg]
    · simp [h]
    · intro hcon
      exact hcon.2 h

/-- C8 witness: a 500 ms release arriving mid-spin leaves the spin state
untouched. -/
theorem C8_reentrant_trigger_ignored_witness :
    (mouseupHandler 500 { dragStartTime := 0, isDragging := true } sampleTwirlState).2.state
      = AnimMode.twirl ∧
    (mouseupHandler 500 { dragStartTime := 0, isDragging := true } sampleTwirlState).2.twirlTimer
      = sampleTwirlState.twirlTimer ∧
    (mouseupHandler 500 { dragStartTime := 0, isDragging := true } sampleTwirlState).2.twirlPhase
      = sampleTwirlState.twirlPhase ∧
    (mouseupHandler 500 { dragStartTime := 0, isDragging := true } sampleTwirlState).2.twirlRotation
      = sampleTwirlState.twirlRotation :=
  C8_reentrant_trigger_ignored 500 { dragStartTime := 0, isDragging := true }
    sampleTwirlState (by norm_num [sampleTwirlState, baseAnimState])

-- ── Twirl animation update ──

def errBreathValue : String := "ReferenceError reading breathValue before its declaration"

def errSpineUndefined : String := "ReferenceError reading the undeclared spine"

/-- resetToDefaultPose, main.js lines 346-369: write the rest pose into
every joint that exists.  The vrm-null guard is external to the model
since the rig record is always supplied. -/
def resetToDefaultPose (r : Rig) : Rig :=
  let r1 := match r.hips with
    | some _ => { r with hips := some { rotX := 0, rotY := 0, rotZ := 0, posY := 0 } }
    | none => r
  let r2 := match r1.spine with
    | some j => { r1 with spine := some { j with rotX := 0, rotY := 0, rotZ := 0 } }
    | none => r1
  let r3 := match r2.chest with
    | some j => { r2 with chest := some { j with rotX := 0, rotY := 0, rotZ := 0 } }
    | none => r2
  let r4 := match r3.head with
    | some j => { r3 with head := some { j with rotX := 0, rotY := 0, rotZ := 0 } }
    | none => r3
  let r5 := match r4.leftUpperArm with
    | some j => { r4 with leftUpperArm := some { j with rotX := 0, rotY := 0, rotZ := -(6/5) } }
    | none => r4
  let r6 := match r5.rightUpperArm with
    | some j => { r5 with rightUpperArm := some { j with rotX := 0, rotY := 0, rotZ := 6/5 } }
    | none => r5
  let r7 := match r6.leftLowerArm with
    | some j => { r6 with leftLowerArm := some { j with rotX := 0, rotY := 0, rotZ := 1/20 } }
    | none => r6
  match r7.rightLowerArm with
    | some j => { r7 with rightLowerArm := some { j with rotX := 0, rotY := 0, rotZ := -(1/20) } }
    | none => r7

/-- updateTwirlAnimation, main.js lines 624-767.  msin and mpi stand for
Math.sin and Math.PI; no verified property depends on their values.  The
return phase is modelled as raising: with hips present the read of
breathValue on line 722 hits the temporal dead zone of the const declared
on line 764, and otherwise the read of the undeclared spine on line 747
raises.  The joint writes preceding the raise are dropped along with the
rest of the frame, as no claim depends on them. -/
def updateTwirlAnimation (msin : ℚ → ℚ) (mpi : ℚ) (delta : ℚ)
    (s : AnimState) (r : Rig) : Except String (AnimState × Rig) :=
  let s0 := { s with twirlTimer := s.twirlTimer + delta }
  match s.twirlPhase with
  | TwirlPhase.twirl =>
    let twirlProgress := min (1:ℚ) (s0.twirlTimer / (3/2))
    let ease := 1 - (1 - twirlProgress)^3
    let s1 := { s0 with twirlRotation := ease * mpi * 2 }
    let r1 := match r.hips with
      | some j => { r with hips := some { j with
          rotY := s1.twirlRotation,
          posY := msin (twirlProgress * mpi) * (3/100) } }
      | none => r
    let r2 := match r1.leftUpperArm with
      | some j => { r1 with leftUpperArm := some { j with
          rotZ := -(3/2) + msin (twirlProgress * mpi * 2) * (1/5) } }
      | none => r1
    let r3 := match r2.rightUpperArm with
      | some j => { r2 with rightUpperArm := some { j with
          rotZ := 3/2 - msin (twirlProgress * mpi * 2) * (1/5) } }
      | none => r2
    let s2 := if twirlProgress ≥ 1 then
        { s1 with twirlPhase := TwirlPhase.smile, twirlTimer := 0 }
      else s1
    let s3 := { s2 with breathPhase := s2.breathPhase + delta * (6/5) }
    Except.ok (s3, r3)
  | TwirlPhase.smile =>
    let smileProgress := min (1:ℚ) (s0.twirlTimer / (4/5))
    let r1 := if r.hasExpressionManager then
        r.setExpr exprHappy (msin (smileProgress * mpi) * (4/5))
      else r
    let r2 := match r1.head with
      | some j => { r1 with head := some { j with
          rotZ := msin (smileProgress * mpi) * (1/10) } }
      | none => r1
    let s1 := if smileProgress ≥ 1 then
        { s0 with twirlPhase := TwirlPhase.wink, twirlTimer := 0 }
      else s0
    let s2 := { s1 with breathPhase := s1.breathPhase + delta * (6/5) }
    Except.ok (s2, r2)
  | TwirlPhase.wink =>
    let winkProgress := min (1:ℚ) (s0.twirlTimer / (3/5))
    let r1 := if r.hasExpressionManager then r.setExpr exprHappy (7/10) else r
    let r2 :=
      if winkProgress < 1/2 then
        if r1.hasExpressionManager then
          r1.setExpr exprBlink (winkProgress * 2 * (7/10))
        else r1
      else
        if r1.hasExpressionManager then
          r1.setExpr exprBlink ((1 - winkProgress) * 2 * (7/10))
        else r1
    let s1 := if winkProgress ≥ 1 then
        { s0 with twirlPhase := TwirlPhase.ret, twirlTimer := 0 }
      else s0
    let s2 := { s1 with breathPhase := s1.breathPhase + delta * (6/5) }
    Except.ok (s2, r2)
  | TwirlPhase.ret =>
    if r.hips.isSome then Except.error errBreathValue
    else Except.error errSpineUndefined

/-- The body of the return-phase completion branch, main.js lines 750-759:
the block that would run once returnProgress reached 1.  It is embedded
separately because the surrounding return phase raises before reaching
it, making it dead code in the shipped function. -/
def twirlReturnCompletion (s : AnimState) (r : Rig) : AnimState × Rig :=
  ({ s with
      state := AnimMode.idle
      twirlPhase := TwirlPhase.twirl
      twirlRotation := 0
      wasDragged := false
      idleTimer := 0 },
   resetToDefaultPose r)

/-- A fully-populated rig with every joint present and an expression
manager exposing the happy and relaxed expressions. -/
def sampleRig : Rig where
  hips := some { rotX := 0, rotY := 0, rotZ := 0, posY := 0 }
  spine := some { rotX := 0, rotY := 0, rotZ := 0, posY := 0 }
  chest := some { rotX := 0, rotY := 0, rotZ := 0, posY := 0 }
  head := some { rotX := 0, rotY := 0, rotZ := 0, posY := 0 }
  leftUpperArm := some { rotX := 0, rotY := 0, rotZ := -(6/5), posY := 0 }
  rightUpperArm := some { rotX := 0, rotY := 0, rotZ := 6/5, posY := 0 }
  leftLowerArm := some { rotX := 0, rotY := 0, rotZ := 1/20, posY := 0 }
  rightLowerArm := some { rotX := 0, rotY := 0, rotZ := -(1/20), posY := 0 }
  hasExpressionManager := true
  exprs := fun _ => 0
  exposed := fun n => n == exprHappy || n == exprRelaxed

/-- A concrete animator state inside the twirl return (recovery) phase,
reached after a spin triggered at idle elapsed 35 s. -/
def sampleReturnState : AnimState :=
  { baseAnimState with
      state := AnimMode.twirl
      twirlPhase := TwirlPhase.ret
      twirlTimer := 1/2
      idleTimer := 35
      currentIdleIndex := 3 }

/-- C2: the claim says every phase of the twirl update completes without
error.  On the code, every frame spent in the return (recovery) phase
raises a ReferenceError: with the hips joint present the write on line
722 reads breathValue inside the temporal dead zone of the const declared
on line 764, and with hips absent line 747 reads the undeclared spine.
The exception crosses the animation-core boundary. -/
theorem C2_return_phase_raises (msin : ℚ → ℚ) (mpi delta : ℚ)
    (s : AnimState) (r : Rig) (h : s.twirlPhase = TwirlPhase.ret) :
    isError (updateTwirlAnimation msin mpi delta s r) = true := by
  unfold updateTwirlAnimation
  simp only [h]
  cases hr : r.hips <;> simp [isError, hr]

/-- C2 witness: the concrete recovery-phase state raises. -/
theorem C2_return_phase_raises_witness :
    isError (updateTwirlAnimation (fun _ => 0) 0 (1/30) sampleReturnState sampleRig) = true :=
  C2_return_phase_raises (fun _ => 0) 0 (1/30) sampleReturnState sampleRig rfl

/-- C3: the claim says recovery completion returns the state to Idle,
resets the idle elapsed time to zero and resumes the idle loop at the
first pose of its sequence.  Evaluating the code at the failing input:
the completion branch (lines 750-759), were it reached, does set the
state to Idle and the idle timer to 0, but leaves the pose index at 3
rather than resetting it to 0; and the enclosing return phase actually
raises before the branch can run, so recovery never completes at all. -/
theorem C3_completion_resets_timer_not_pose_index :
    (twirlReturnCompletion sampleReturnState sampleRig).1.state = AnimMode.idle ∧
    (twirlReturnCompletion sampleReturnState sampleRig).1.idleTimer = 0 ∧
    (twirlReturnCompletion sampleReturnState sampleRig).1.currentIdleIndex = 3 ∧
    (3 : Nat) ≠ 0 ∧
    isError (updateTwirlAnimation (fun q => q) 1 (1/30) sampleReturnState sampleRig) = true := by
  refine ⟨rfl, rfl, rfl, by decide, ?_⟩
  norm_num [updateTwirlAnimation, sampleReturnState, baseAnimState, sampleRig, isError]

-- ── Pose model and idle animation definitions ──

/-- A total pose over the fixed key set of DEFAULT_POSE, main.js 127-143. -/
structure Pose where
  hipsPosY : ℚ
  hipsRotY : ℚ
  hipsRotZ : ℚ
  hipsRotX : ℚ
  spineRotX : ℚ
  chestRotX : ℚ
  leftArmRotZ : ℚ
  rightArmRotZ : ℚ
  leftArmRotX : ℚ
  rightArmRotX : ℚ
  leftLowerArmRot : ℚ
  rightLowerArmRot : ℚ
  headRotY : ℚ
  headRotX : ℚ
  headRotZ : ℚ
deriving DecidableEq

/-- A pose object as returned by the animation update closures: any
subset of the DEFAULT_POSE keys may be present. -/
structure PartialPose where
  hipsPosY : Option ℚ
  hipsRotY : Option ℚ
  hipsRotZ : Option ℚ
  hipsRotX : Option ℚ
  spineRotX : Option ℚ
  chestRotX : Option ℚ
  leftArmRotZ : Option ℚ
  rightArmRotZ : Option ℚ
  leftArmRotX : Option ℚ
  rightArmRotX : Option ℚ
  leftLowerArmRot : Option ℚ
  rightLowerArmRot : Option ℚ
  headRotY : Option ℚ
  headRotX : Option ℚ
  headRotZ : Option ℚ
deriving DecidableEq

/-- The pose object with no keys. -/
def emptyPartialPose : PartialPose where
  hipsPosY := none
  hipsRotY := none
  hipsRotZ := none
  hipsRotX := none
  spineRotX := none
  chestRotX := none
  leftArmRotZ := none
  rightArmRotZ := none
  leftArmRotX := none
  rightArmRotX := none
  leftLowerArmRot := none
  rightLowerArmRot := none
  headRotY := none
  headRotX := none
  headRotZ := none

/-- DEFAULT_POSE, main.js lines 127-143. -/
def DEFAULT_POSE : Pose where
  hipsPosY := 0
  hipsRotY := 0
  hipsRotZ := 0
  hipsRotX := 0
  spineRotX := 0
  chestRotX := 0
  leftArmRotZ := -(6/5)
  rightArmRotZ := 6/5
  leftArmRotX := 0
  rightArmRotX := 0
  leftLowerArmRot := 1/20
  rightLowerArmRot := -(1/20)
  headRotY := 0
  headRotX := 0
  headRotZ := 0

/-- One idle animation entry: a name and an update closure taking
(delta, phase); Math.sin is abstracted as the msin parameter. -/
structure IdleAnim where
  animName : String
  update : (ℚ → ℚ) → ℚ → ℚ → PartialPose

/-- gentleSway, main.js lines 149-160. -/
def gentleSwayUpdate (msin : ℚ → ℚ) (delta phase : ℚ) : PartialPose :=
  { emptyPartialPose with
      hipsRotY := some (msin (phase * (1/2)) * (3/200))
      hipsRotZ := some (msin (phase * (3/10)) * (1/125))
      spineRotX := some (msin (phase * (7/10)) * (1/100))
      leftArmRotZ := some (-(6/5) + msin (phase * (2/5)) * (3/100))
      rightArmRotZ := some (6/5 - msin (phase * (2/5)) * (3/100))
      headRotY := some (msin (phase * (3/10)) * (1/25))
      headRotX := some (msin (phase * (1/2)) * (1/50)) }

/-- thoughtfulTilt, main.js lines 162-174. -/
def thoughtfulTiltUpdate (msin : ℚ → ℚ) (delta phase : ℚ) : PartialPose :=
  { emptyPartialPose with
      hipsRotY := some (msin (phase * (1/5)) * (1/200))
      hipsRotZ := some 0
      spineRotX := some (1/50 + msin (phase * (2/5)) * (3/200))
      leftArmRotZ := some (-(23/20) + msin (phase * (3/10)) * (1/50))
      rightArmRotZ := some (23/20)
      headRotY := some (msin (phase * (1/4)) * (3/25))
      headRotX := some (-(1/20) + msin (phase * (7/20)) * (1/25))
      headRotZ := some (msin (phase * (1/5)) * (2/25)) }

/-- weightShift, main.js lines 176-187. -/
def weightShiftUpdate (msin : ℚ → ℚ) (delta phase : ℚ) : PartialPose :=
  { emptyPartialPose with
      hipsPosY := some (msin (phase * (3/2)) * (1/125))
      hipsRotY := some (msin (phase * (4/5)) * (1/40))
      hipsRotZ := some (msin phase * (3/250))
      spineRotX := some (msin (phase * (3/5)) * (1/125))
      leftArmRotZ := some (-(5/4) + msin (phase * (1/2)) * (1/25))
      rightArmRotZ := some (5/4 - msin (phase * (1/2)) * (1/25))
      headRotY := some (msin (phase * (2/5)) * (3/100)) }

/-- confidentPose, main.js lines 189-203. -/
def confidentPoseUpdate (msin : ℚ → ℚ) (delta phase : ℚ) : PartialPose :=
  { emptyPartialPose with
      hipsRotY := some (msin (phase * (3/10)) * (1/100))
      hipsRotZ := some (msin (phase * (1/4)) * (1/200))
      spineRotX := some (-(3/200) + msin (phase * (1/2)) * (3/250))
      chestRotX := some (msin (phase * (4/5)) * (1/50))
      leftArmRotZ := some (-(11/10) + msin (phase * (7/20)) * (1/40))
      rightArmRotZ := some (11/10 - msin (phase * (7/20)) * (1/40))
      leftArmRotX := some (msin (phase * (2/5)) * (3/200))
      rightArmRotX := some (msin (phase * (2/5)) * (3/200))
      headRotY := some (msin (phase * (1/5)) * (1/40))
      headRotX := some (-(1/50)) }

/-- playfulBounce, main.js lines 205-219. -/
def playfulBounceUpdate (msin : ℚ → ℚ) (delta phase : ℚ) : PartialPose :=
  { emptyPartialPose with
      hipsPosY := some (abs (msin (phase * 2)) * (3/500))
      hipsRotY := some (msin (phase * (9/10)) * (9/500))
      hipsRotZ := some (msin (phase * (7/10)) * (1/100))
      spineRotX := some (msin (phase * (6/5)) * (3/200))
      leftArmRotZ := some (-(59/50) + msin (phase * (4/5)) * (7/200))
      rightArmRotZ := some (59/50 - msin (phase * (3/5)) * (7/200))
      leftLowerArmRot := some (1/10 + msin phase * (1/20))
      rightLowerArmRot := some (-(1/10) - msin phase * (1/20))
      headRotY := some (msin (phase * (17/20)) * (1/20))
      headRotX := some (msin (phase * (11/10)) * (1/40)) }

/-- IDLE_ANIMATIONS, main.js lines 147-220, in source order. -/
def IDLE_ANIMATIONS : List IdleAnim :=
  [{ animName := "gentleSway", update := gentleSwayUpdate },
   { animName := "thoughtfulTilt", update := thoughtfulTiltUpdate },
   { animName := "weightShift", update := weightShiftUpdate },
   { animName := "confidentPose", update := confidentPoseUpdate },
   { animName := "playfulBounce", update := playfulBounceUpdate }]

/-- Look up and evaluate the idle animation at a list index.  The index
is always kept within range by the modulo-length advance, so the
out-of-range fallback is unreachable. -/
def idleAnimUpdate (msin : ℚ → ℚ) (i : Nat) (delta phase : ℚ) : PartialPose :=
  match IDLE_ANIMATIONS.get? i with
  | some a => a.update msin delta phase
  | none => emptyPartialPose

/-- The cubic smoothstep polynomial t * t * (3 - 2 * t) used by the idle
blending, main.js lines 409 and 413. -/
def smoothstepQ (t : ℚ) : ℚ := t * t * (3 - 2 * t)

/-- The idle blend factor as a function of cycleProgress, main.js lines
405-414: a smoothstep ramp up on the first 15 percent of the hold, a
ramp down on the last 15 percent, and zero in between. -/
def blendFactor (cp : ℚ) : ℚ :=
  if cp < 3/20 then smoothstepQ (cp / (3/20))
  else if cp > 17/20 then 1 - smoothstepQ ((cp - 17/20) / (3/20))
  else 0

/-- The blend factor described by the specification, for comparison:
zero up to three quarters of the hold, then a linear ramp to one over
the final quarter. -/
def specBlendFactor (p : ℚ) : ℚ :=
  if p ≤ 3/4 then 0 else (p - 3/4) / (1/4)

/-- One component of the blend loop of main.js lines 417-421. -/
def blendComponent (raw : Option ℚ) (dflt bf : ℚ) : ℚ :=
  (raw.getD dflt) * (1 - bf) + dflt * bf

/-- The blend loop of main.js lines 417-421: every DEFAULT_POSE key is
mixed between the animation value (defaulted) and the default pose. -/
def blendWithDefault (raw : PartialPose) (bf : ℚ) : Pose where
  hipsPosY := blendComponent raw.hipsPosY DEFAULT_POSE.hipsPosY bf
  hipsRotY := blendComponent raw.hipsRotY DEFAULT_POSE.hipsRotY bf
  hipsRotZ := blendComponent raw.hipsRotZ DEFAULT_POSE.hipsRotZ bf
  hipsRotX := blendComponent raw.hipsRotX DEFAULT_POSE.hipsRotX bf
  spineRotX := blendComponent raw.spineRotX DEFAULT_POSE.spineRotX bf
  chestRotX := blendComponent raw.chestRotX DEFAULT_POSE.chestRotX bf
  leftArmRotZ := blendComponent raw.leftArmRotZ DEFAULT_POSE.leftArmRotZ bf
  rightArmRotZ := blendComponent raw.rightArmRotZ DEFAULT_POSE.rightArmRotZ bf
  leftArmRotX := blendComponent raw.leftArmRotX DEFAULT_POSE.leftArmRotX bf
  rightArmRotX := blendComponent raw.rightArmRotX DEFAULT_POSE.rightArmRotX bf
  leftLowerArmRot := blendComponent raw.leftLowerArmRot DEFAULT_POSE.leftLowerArmRot bf
  rightLowerArmRot := blendComponent raw.rightLowerArmRot DEFAULT_POSE.rightLowerArmRot bf
  headRotY := blendComponent raw.headRotY DEFAULT_POSE.headRotY bf
  headRotX := blendComponent raw.headRotX DEFAULT_POSE.headRotX bf
  headRotZ := blendComponent raw.headRotZ DEFAULT_POSE.headRotZ bf

/-- The totalisation of a pose object against DEFAULT_POSE, that is the
blend loop at blend factor zero. -/
def PartialPose.toPose (raw : PartialPose) : Pose where
  hipsPosY := raw.hipsPosY.getD DEFAULT_POSE.hipsPosY
  hipsRotY := raw.hipsRotY.getD DEFAULT_POSE.hipsRotY
  hipsRotZ := raw.hipsRotZ.getD DEFAULT_POSE.hipsRotZ
  hipsRotX := raw.hipsRotX.getD DEFAULT_POSE.hipsRotX
  spineRotX := raw.spineRotX.getD DEFAULT_POSE.spineRotX
  chestRotX := raw.chestRotX.getD DEFAULT_POSE.chestRotX
  leftArmRotZ := raw.leftArmRotZ.getD DEFAULT_POSE.leftArmRotZ
  rightArmRotZ := raw.rightArmRotZ.getD DEFAULT_POSE.rightArmRotZ
  leftArmRotX := raw.leftArmRotX.getD DEFAULT_POSE.leftArmRotX
  rightArmRotX := raw.rightArmRotX.getD DEFAULT_POSE.rightArmRotX
  leftLowerArmRot := raw.leftLowerArmRot.getD DEFAULT_POSE.leftLowerArmRot
  rightLowerArmRot := raw.rightLowerArmRot.getD DEFAULT_POSE.rightLowerArmRot
  headRotY := raw.headRotY.getD DEFAULT_POSE.headRotY
  headRotX := raw.headRotX.getD DEFAULT_POSE.headRotX
  headRotZ := raw.headRotZ.getD DEFAULT_POSE.headRotZ

-- ── Blink overlay ──

/-- The triangular eyelid weight of main.js lines 438-446 as a function
of blink progress. -/
def blinkWeight (p : ℚ) : ℚ :=
  if p < 1/2 then p * 2
  else if p < 1 then 1 - (p - 1/2) * 2
  else 0

/-- The blink section of updateIdleAnimation, main.js lines 428-450.
randA and randB stand for the two Math.random() draws of the
nextBlinkTime redraw. -/
def blinkUpdate (randA randB delta : ℚ) (s : AnimState) (r : Rig) :
    AnimState × Rig :=
  let s1 := { s with blinkTimer := s.blinkTimer + delta }
  let s2 :=
    if s1.isBlinking = false ∧ s1.blinkTimer ≥ s1.nextBlinkTime then
      { s1 with
          isBlinking := true
          blinkProgress := 0
          nextBlinkTime := if randA < 3/10 then 3/20 else 2 + randB * 5
          blinkTimer := 0 }
    else s1
  if s2.isBlinking then
    let p := s2.blinkProgress + delta * 8
    let s3 := { s2 with blinkProgress := p }
    let s4 := if 1 ≤ p then { s3 with isBlinking := false } else s3
    let r1 := if r.hasExpressionManager then r.setExpr exprBlink (blinkWeight p) else r
    (s4, r1)
  else (s2, r)

-- ── Ambient expression overlay ──

/-- The candidate filter of main.js lines 501-502: the fixed candidate
set restricted to expressions the rig actually exposes. -/
def availCandidates (r : Rig) : List String :=
  List.filter (fun e => r.hasExpressionManager && r.exposed e) [exprHappy, exprRelaxed]

/-- The trigger half of the occasional-expression section, main.js lines
499-510: when idle in fade direction 0 and the timer has expired, pick a
random exposed candidate and start a fade-in. -/
def exprTriggerCheck (randPick randNext : ℚ) (s : AnimState) (r : Rig) : AnimState :=
  if s.expressionFadeDir = 0 ∧ s.expressionTimer ≥ s.nextExpressionTime then
    if 0 < (availCandidates r).length then
      { s with
          currentExpression := (availCandidates r).get?
            (Int.toNat ⌊randPick * ((availCandidates r).length : ℚ)⌋)
          expressionFadeDir := 1
          expressionWeight := 0
          expressionTimer := 0
          nextExpressionTime := 5 + randNext * 10 }
    else s
  else s

/-- The fade half of the occasional-expression section, main.js lines
512-527, entered with the current expression name ce when the expression
manager exists. -/
def exprFade (delta : ℚ) (ce : String) (s : AnimState) (r : Rig) :
    AnimState × Rig :=
  if s.expressionFadeDir = 1 then
    let w := min (1:ℚ) (s.expressionWeight + delta * (4/5))
    let s1 := { s with
        expressionWeight := w
        expressionFadeDir := if (2:ℚ)/5 ≤ w then -1 else 1 }
    (s1, r.setExpr ce w)
  else if s.expressionFadeDir = -1 then
    let w := max (0:ℚ) (s.expressionWeight - delta * (1/2))
    if w ≤ 0 then
      ({ s with expressionWeight := w, expressionFadeDir := 0, currentExpression := none },
       r.setExpr ce 0)
    else ({ s with expressionWeight := w }, r.setExpr ce w)
  else (s, r.setExpr ce s.expressionWeight)

/-- The guard and dispatch of the fade, main.js line 512: the fade body
runs only when a current expression is set and the manager exists. -/
def exprDispatch (delta : ℚ) (s2 : AnimState) (r : Rig) : AnimState × Rig :=
  match s2.currentExpression with
  | some ce => if r.hasExpressionManager then exprFade delta ce s2 r else (s2, r)
  | none => (s2, r)

/-- The full occasional-expression section, main.js lines 498-527. -/
def exprOverlayUpdate (randPick randNext delta : ℚ) (s : AnimState) (r : Rig) :
    AnimState × Rig :=
  exprDispatch delta
    (exprTriggerCheck randPick randNext
      { s with expressionTimer := s.expressionTimer + delta } r) r

-- ── Full idle update ──

/-- The joint-write section of updateIdleAnimation, main.js lines
452-496.  The JS number-or fallbacks are kept via jsOr. -/
def applyIdlePose (msin : ℚ → ℚ) (breathPhase breathValue : ℚ) (p : Pose) (r : Rig) : Rig :=
  let r1 := match r.hips with
    | some j => { r with hips := some { j with
        posY := breathValue + jsOr p.hipsPosY 0
        rotY := jsOr p.hipsRotY 0
        rotZ := jsOr p.hipsRotZ 0
        rotX := jsOr p.hipsRotX 0 } }
    | none => r
  let r2 := match r1.spine with
    | some j => { r1 with spine := some { j with
        rotX := jsOr p.spineRotX 0 + msin breathPhase * (1/100) } }
    | none => r1
  let r3 := match r2.chest with
    | some j => { r2 with chest := some { j with rotX := p.chestRotX } }
    | none => r2
  let r4 := match r3.head with
    | some j => { r3 with head := some { j with
        rotY := jsOr p.headRotY 0
        rotX := jsOr p.headRotX 0
        rotZ := jsOr p.headRotZ 0 } }
    | none => r3
  let r5 := match r4.leftUpperArm with
    | some j => { r4 with leftUpperArm := some { j with
        rotZ := jsOr p.leftArmRotZ (-(6/5))
        rotX := jsOr p.leftArmRotX 0 } }
    | none => r4
  let r6 := match r5.rightUpperArm with
    | some j => { r5 with rightUpperArm := some { j with
        rotZ := jsOr p.rightArmRotZ (6/5)
        rotX := jsOr p.rightArmRotX 0 } }
    | none => r5
  let r7 := match r6.leftLowerArm with
    | some j => { r6 with leftLowerArm := some { j with rotZ := p.leftLowerArmRot } }
    | none => r6
  match r7.rightLowerArm with
    | some j => { r7 with rightLowerArm := some { j with rotZ := p.rightLowerArmRot } }
    | none => r7

/-- updateIdleAnimation, main.js lines 375-535, in source order: idle
cycling, pose evaluation and blending, breathing, blink, joint writes,
occasional expressions, sway phases.  The four rand parameters stand for
the Math.random() draws. -/
def updateIdleAnimation (msin : ℚ → ℚ)
    (randBlinkA randBlinkB randExprPick randExprNext delta : ℚ)
    (s : AnimState) (r : Rig) : AnimState × Rig :=
  let s1 := { s with idleTimer := s.idleTimer + delta }
  let cycleProgress := s1.idleTimer / s1.idleDuration
  let sr2 :=
    if s1.idleTimer ≥ s1.idleDuration ∧ s1.state = AnimMode.idle ∧ cycleProgress > 17/20 then
      ({ s1 with
          idleTimer := 0
          currentIdleIndex := (s1.currentIdleIndex + 1) % IDLE_ANIMATIONS.length },
       resetToDefaultPose r)
    else (s1, r)
  let s2 := sr2.1
  let idlePhase := s2.bodySwayPhase + s2.idleTimer
  let rawIdlePose := idleAnimUpdate msin s2.currentIdleIndex delta idlePhase
  let idlePose := blendWithDefault rawIdlePose (blendFactor cycleProgress)
  let s3 := { s2 with breathPhase := s2.breathPhase + delta * (6/5) }
  let breathValue := msin s3.breathPhase * (3/1000)
  let sr4 := blinkUpdate randBlinkA randBlinkB delta s3 sr2.2
  let r5 := applyIdlePose msin s3.breathPhase breathValue idlePose sr4.2
  let sr6 := exprOverlayUpdate randExprPick randExprNext delta sr4.1 r5
  let s7 := { sr6.1 with
      bodySwayPhase := sr6.1.bodySwayPhase + delta * (3/20)
      headSwayPhase := sr6.1.headSwayPhase + delta * (3/10) }
  (s7, sr6.2)

-- ── Theorems for C4 (idle blend factor) ──

theorem smoothstepQ_mono (x y : ℚ) (hx : 0 ≤ x) (hxy : x ≤ y) (hy : y ≤ 1) :
    smoothstepQ x ≤ smoothstepQ y := by
  unfold smoothstepQ
  nlinarith [mul_nonneg hx (sub_nonneg.mpr hxy), mul_nonneg (sub_nonneg.mpr hxy) (sub_nonneg.mpr hy),
    mul_nonneg (hx.trans hxy) (sub_nonneg.mpr hy), mul_nonneg hx (sub_nonneg.mpr hxy)]

theorem blendFactor_upper (x : ℚ) (hx : 17/20 < x) :
    blendFactor x = 1 - smoothstepQ ((x - 17/20) / (3/20)) := by
  unfold blendFactor
  rw [if_neg (by linarith), if_pos hx]

/-- C4 counterexample: the claim says the blend factor is 0 for every
poseProgress in the first three quarters of the hold.  On the code, at
cycleProgress 0.075 the blend factor is one half, not zero, while the
blend factor described by the specification is zero there. -/
theorem C4_counterexample :
    blendFactor (3/40) = 1/2 ∧ specBlendFactor (3/40) = 0 ∧ ((1:ℚ)/2) ≠ 0 := by
  refine ⟨?_, ?_, by norm_num⟩ <;>
    norm_num [blendFactor, specBlendFactor, smoothstepQ]

/-- C4 amended: the blend factor is 0 on the middle [0.15, 0.85] of the
hold, ramps smoothly on the first 15 percent, and on the final 15
percent it falls monotonically back to 0 at cycleProgress 1; the
compositor mixes the current pose toward the fixed DEFAULT_POSE (blend
factor 1 yields DEFAULT_POSE exactly, blend factor 0 the pose itself),
not toward the next pose of the sequence. -/
theorem C4_blend_amended (cp a b : ℚ) (raw : PartialPose) :
    (3/20 ≤ cp → cp ≤ 17/20 → blendFactor cp = 0) ∧
    (17/20 < a → a ≤ b → b ≤ 1 → blendFactor b ≤ blendFactor a) ∧
    blendFactor 1 = 0 ∧
    blendWithDefault raw 0 = PartialPose.toPose raw ∧
    blendWithDefault raw 1 = DEFAULT_POSE := by
  refine ⟨?_, ?_, ?_, ?_, ?_⟩
  · intro h1 h2
    unfold blendFactor
    rw [if_neg (by linarith), if_neg (by linarith)]
  · intro ha hab hb1
    rw [blendFactor_upper a ha, blendFactor_upper b (lt_of_lt_of_le ha hab)]
    have hm := smoothstepQ_mono ((a - 17/20) / (3/20)) ((b - 17/20) / (3/20))
      (by linarith) (by linarith) (by linarith)
    linarith
  · norm_num [blendFactor, smoothstepQ]
  · unfold blendWithDefault PartialPose.toPose blendComponent
    congr 1 <;> ring
  · unfold blendWithDefault blendComponent DEFAULT_POSE
    congr 1 <;> ring

/-- C4 witness: concrete instances of the amended facts. -/
theorem C4_blend_amended_witness :
    blendFactor (1/2) = 0 ∧
    blendFactor 1 ≤ blendFactor (9/10) ∧
    blendWithDefault emptyPartialPose 1 = DEFAULT_POSE :=
  ⟨(C4_blend_amended (1/2) (9/10) 1 emptyPartialPose).1 (by norm_num) (by norm_num),
   (C4_blend_amended (1/2) (9/10) 1 emptyPartialPose).2.1 (by norm_num) (by norm_num) le_rfl,
   (C4_blend_amended (1/2) (9/10) 1 emptyPartialPose).2.2.2.2⟩

-- ── Theorems for C9 (blink overlay) ──

/-- C9: while a blink is in progress the progress advances by 8 times
delta, the eyelid weight written to the rig is the triangular function
of the new progress (2 p rising, 2 (1 - p) falling, 0 at or beyond 1),
the blink flag turns false exactly when the new progress reaches 1, and
the weight is 0 at progress 0, 1 at progress one half, 0 at progress 1
and never above 1. -/
theorem C9_blink_triangular (randA randB delta : ℚ) (s : AnimState) (r : Rig)
    (hb : s.isBlinking = true) :
    ((blinkUpdate randA randB delta s r).1.blinkProgress = s.blinkProgress + delta * 8) ∧
    ((blinkUpdate randA randB delta s r).1.isBlinking = false ↔
      1 ≤ s.blinkProgress + delta * 8) ∧
    (r.hasExpressionManager = true →
      (blinkUpdate randA randB delta s r).2.exprs exprBlink
        = blinkWeight (s.blinkProgress + delta * 8)) ∧
    blinkWeight 0 = 0 ∧ blinkWeight (1/2) = 1 ∧ blinkWeight 1 = 0 ∧
    (∀ p : ℚ, p < 1/2 → blinkWeight p = 2 * p) ∧
    (∀ p : ℚ, 1/2 ≤ p → p < 1 → blinkWeight p = 2 * (1 - p)) ∧
    (∀ p : ℚ, 1 ≤ p → blinkWeight p = 0) ∧
    (∀ p : ℚ, 0 ≤ p → blinkWeight p ≤ 1) := by
  have hstep : blinkUpdate randA randB delta s r =
      (if 1 ≤ s.blinkProgress + delta * 8 then
        { s with blinkTimer := s.blinkTimer + delta,
                 blinkProgress := s.blinkProgress + delta * 8, isBlinking := false }
       else
        { s with blinkTimer := s.blinkTimer + delta,
                 blinkProgress := s.blinkProgress + delta * 8 },
       if r.hasExpressionManager then
         r.setExpr exprBlink (blinkWeight (s.blinkProgress + delta * 8))
       else r) := by
    unfold blinkUpdate
    simp [hb]
  refine ⟨?_, ?_, ?_, by norm_num [blinkWeight], by norm_num [blinkWeight],
    by norm_num [blinkWeight], ?_, ?_, ?_, ?_⟩
  · rw [hstep]
    split_ifs <;> rfl
  · rw [hstep]
    split_ifs with h <;> simp [h, hb]
  · intro hmgr
    rw [hstep]
    simp [hmgr, Rig.setExpr]
  · intro p hp
    unfold blinkWeight
    rw [if_pos hp]
    ring
  · intro p hp1 hp2
    unfold blinkWeight
    rw [if_neg (not_lt.mpr hp1), if_pos hp2]
    ring
  · intro p hp
    unfold blinkWeight
    rw [if_neg (by linarith), if_neg (by linarith)]
  · intro p hp
    unfold blinkWeight
    split_ifs with h1 h2 <;> linarith

/-- A concrete state with a blink in progress at 0.3. -/
def blinkingState : AnimState :=
  { baseAnimState with isBlinking := true, blinkProgress := 3/10 }

/-- C9 witness: a blink in progress at 0.3 with a 1/30 s frame. -/
theorem C9_blink_triangular_witness :
    ((blinkUpdate (1/2) (1/2) (1/30) blinkingState sampleRig).1.blinkProgress
      = 3/10 + (1/30) * 8) ∧
    blinkWeight 0 = 0 ∧ blinkWeight (1/2) = 1 ∧ blinkWeight 1 = 0 :=
  ⟨(C9_blink_triangular (1/2) (1/2) (1/30) blinkingState sampleRig rfl).1,
   (C9_blink_triangular (1/2) (1/2) (1/30) blinkingState sampleRig rfl).2.2.2.1,
   (C9_blink_triangular (1/2) (1/2) (1/30) blinkingState sampleRig rfl).2.2.2.2.1,
   (C9_blink_triangular (1/2) (1/2) (1/30) blinkingState sampleRig rfl).2.2.2.2.2.1⟩

-- ── Theorems for C7 (ambient expression weight) ──

/-- The ambient-expression invariant: while fading in the weight is still
under the 0.4 switch threshold, and the weight overall stays under
0.48, the threshold plus one maximal frame increment. -/
def ExprInv (s : AnimState) : Prop :=
  (s.expressionFadeDir = 1 → s.expressionWeight < 2/5) ∧
  s.expressionWeight < 12/25

theorem setExpr_cases (r : Rig) (ce nm : String) (v : ℚ) :
    (r.setExpr ce v).exprs nm = v ∨ (r.setExpr ce v).exprs nm = r.exprs nm := by
  unfold Rig.setExpr
  by_cases h : nm = ce <;> simp [h]

theorem setExpr_self (r : Rig) (ce : String) (v : ℚ) :
    (r.setExpr ce v).exprs ce = v := by
  unfold Rig.setExpr
  simp

theorem exprFade_props (delta : ℚ) (ce : String) (s : AnimState) (r : Rig)
    (hd0 : 0 ≤ delta) (hd1 : delta ≤ 1/10) (hinv : ExprInv s) :
    ExprInv (exprFade delta ce s r).1 ∧
    (∀ nm, (exprFade delta ce s r).2.exprs nm ≠ r.exprs nm →
      (exprFade delta ce s r).2.exprs nm < 12/25) ∧
    ((exprFade delta ce s r).1.expressionFadeDir = 0 → s.expressionFadeDir = -1 →
      (exprFade delta ce s r).1.expressionWeight = 0) ∧
    (exprFade delta ce s r).1.nextExpressionTime = s.nextExpressionTime ∧
    (s.expressionFadeDir = -1 → s.currentExpression = some ce →
      (exprFade delta ce s r).1.currentExpression = none →
      (exprFade delta ce s r).2.exprs ce = 0) := by
  by_cases h1 : s.expressionFadeDir = 1
  · have hwlt : min (1:ℚ) (s.expressionWeight + delta * (4/5)) < 12/25 := by
      have hw : s.expressionWeight < 2/5 := hinv.1 h1
      calc min (1:ℚ) (s.expressionWeight + delta * (4/5))
          ≤ s.expressionWeight + delta * (4/5) := min_le_right _ _
        _ < 12/25 := by linarith
    unfold exprFade
    rw [if_pos h1]
    refine ⟨⟨?_, hwlt⟩, ?_, ?_, rfl, ?_⟩
    · intro hdir
      have hd : (if (2:ℚ)/5 ≤ min (1:ℚ) (s.expressionWeight + delta * (4/5))
          then (-1 : Int) else 1) = 1 := hdir
      by_cases hsw : (2:ℚ)/5 ≤ min (1:ℚ) (s.expressionWeight + delta * (4/5))
      · rw [if_pos hsw] at hd
        exact absurd hd (by decide)
      · show min (1:ℚ) (s.expressionWeight + delta * (4/5)) < 2/5
        exact not_le.mp hsw
    · intro nm hne
      rcases setExpr_cases r ce nm (min (1:ℚ) (s.expressionWeight + delta * (4/5))) with h | h
      · rw [h]; exact hwlt
      · exact absurd h hne
    · intro hz hm
      exact absurd (hm.symm.trans h1) (by decide)
    · intro hm
      exact absurd (hm.symm.trans h1) (by decide)
  · by_cases h2 : s.expressionFadeDir = -1
    · unfold exprFade
      rw [if_neg h1, if_pos h2]
      by_cases hw0 : max (0:ℚ) (s.expressionWeight - delta * (1/2)) ≤ 0
      · have hweq : max (0:ℚ) (s.expressionWeight - delta * (1/2)) = 0 :=
          le_antisymm hw0 (le_max_left _ _)
        rw [if_pos hw0]
        refine ⟨⟨?_, ?_⟩, ?_, ?_, rfl, ?_⟩
        · intro hdir
          have h01 : (0 : Int) = 1 := hdir
          exact absurd h01 (by decide)
        · show max (0:ℚ) (s.expressionWeight - delta * (1/2)) < 12/25
          rw [hweq]
          norm_num
        · intro nm hne
          rcases setExpr_cases r ce nm 0 with h | h
          · rw [h]; norm_num
          · exact absurd h hne
        · intro _ _
          exact hweq
        · intro _ _ _
          exact setExpr_self r ce 0
      · rw [if_neg hw0]
        have hwlt : max (0:ℚ) (s.expressionWeight - delta * (1/2)) < 12/25 := by
          rcases max_cases (0:ℚ) (s.expressionWeight - delta * (1/2)) with ⟨he, _⟩ | ⟨he, _⟩
          · rw [he]; norm_num
          · rw [he]; linarith [hinv.2]
        refine ⟨⟨?_, hwlt⟩, ?_, ?_, rfl, ?_⟩
        · intro hdir
          have hd : s.expressionFadeDir = 1 := hdir
          exact absurd (h2.symm.trans hd) (by decide)
        · intro nm hne
          rcases setExpr_cases r ce nm (max (0:ℚ) (s.expressionWeight - delta * (1/2))) with h | h
          · rw [h]; exact hwlt
          · exact absurd h hne
        · intro hz _
          have hd : s.expressionFadeDir = 0 := hz
          exact absurd (h2.symm.trans hd) (by decide)
        · intro _ hce hnone
          have hn : s.currentExpression = none := hnone
          exact absurd (hce.symm.trans hn) (by simp)
    · unfold exprFade
      rw [if_neg h1, if_neg h2]
      refine ⟨hinv, ?_, ?_, rfl, ?_⟩
      · intro nm hne
        rcases setExpr_cases r ce nm s.expressionWeight with h | h
        · rw [h]; exact hinv.2
        · exact absurd h hne
      · intro _ hm
        exact absurd hm h2
      · intro hm
        exact absurd hm h2

theorem exprDispatch_props (delta : ℚ) (s2 : AnimState) (r : Rig)
    (hd0 : 0 ≤ delta) (hd1 : delta ≤ 1/10) (hinv : ExprInv s2) :
    ExprInv (exprDispatch delta s2 r).1 ∧
    (∀ nm, (exprDispatch delta s2 r).2.exprs nm ≠ r.exprs nm →
      (exprDispatch delta s2 r).2.exprs nm < 12/25) ∧
    ((exprDispatch delta s2 r).1.expressionFadeDir = 0 → s2.expressionFadeDir = -1 →
      (exprDispatch delta s2 r).1.expressionWeight = 0) ∧
    (exprDispatch delta s2 r).1.nextExpressionTime = s2.nextExpressionTime ∧
    (∀ ce, s2.expressionFadeDir = -1 → s2.currentExpression = some ce →
      (exprDispatch delta s2 r).1.currentExpression = none →
      (exprDispatch delta s2 r).2.exprs ce = 0) := by
  unfold exprDispatch
  rcases hce : s2.currentExpression with _ | ce
  · refine ⟨hinv, ?_, ?_, rfl, ?_⟩
    · intro nm hne
      exact absurd rfl hne
    · intro hz hm
      exact absurd (hz.symm.trans hm) (by decide)
    · intro ce2 _ hsome _
      exact absurd hsome (by simp)
  · cases hmgr : r.hasExpressionManager
    · refine ⟨hinv, ?_, ?_, rfl, ?_⟩
      · intro nm hne
        exact absurd rfl hne
      · intro hz hm
        exact absurd (hz.symm.trans hm) (by decide)
      · intro ce2 _ hsome hnone
        have hn : s2.currentExpression = none := hnone
        exact absurd (hce.symm.trans hn) (by simp)
    · have hp := exprFade_props delta ce s2 r hd0 hd1 hinv
      refine ⟨hp.1, hp.2.1, hp.2.2.1, hp.2.2.2.1, ?_⟩
      intro ce2 hm hsome hnone
      have hceq : ce = ce2 := Option.some_inj.mp hsome
      rw [← hceq]
      exact hp.2.2.2.2 hm hce hnone

theorem exprTriggerCheck_inv (rp rn : ℚ) (s : AnimState) (r : Rig)
    (hinv : ExprInv s) : ExprInv (exprTriggerCheck rp rn s r) := by
  unfold exprTriggerCheck
  split_ifs with hc ha
  · exact ⟨fun _ => by show (0:ℚ) < 2/5; norm_num, by show (0:ℚ) < 12/25; norm_num⟩
  · exact hinv
  · exact hinv

theorem exprTriggerCheck_skip (rp rn : ℚ) (s : AnimState) (r : Rig)
    (h : s.expressionFadeDir ≠ 0) : exprTriggerCheck rp rn s r = s := by
  unfold exprTriggerCheck
  rw [if_neg]
  intro hcon
  exact h hcon.1

/-- C7 amended: with frame deltas clamped to 0.1 s, the ambient
expression weight satisfies the invariant weight < 0.48 at every step
(it can overshoot the 0.4 switch threshold by at most one frame
increment, 0.8 times delta); every expression weight the step writes to
the rig is below 0.48; when the fade completes the weight is exactly 0,
the rig value of the faded expression is written 0 as the slot is freed,
and while a fade is running no new trigger fires (the next trigger time
is not redrawn). -/
theorem C7_expr_weight_amended (randPick randNext delta : ℚ) (s : AnimState) (r : Rig)
    (hd0 : 0 ≤ delta) (hd1 : delta ≤ 1/10) (hinv : ExprInv s) :
    ExprInv (exprOverlayUpdate randPick randNext delta s r).1 ∧
    (∀ nm, (exprOverlayUpdate randPick randNext delta s r).2.exprs nm ≠ r.exprs nm →
      (exprOverlayUpdate randPick randNext delta s r).2.exprs nm < 12/25) ∧
    ((exprOverlayUpdate randPick randNext delta s r).1.expressionFadeDir = 0 →
      s.expressionFadeDir = -1 →
      (exprOverlayUpdate randPick randNext delta s r).1.expressionWeight = 0) ∧
    (s.expressionFadeDir ≠ 0 →
      (exprOverlayUpdate randPick randNext delta s r).1.nextExpressionTime
        = s.nextExpressionTime) ∧
    (∀ ce, s.expressionFadeDir = -1 → s.currentExpression = some ce →
      (exprOverlayUpdate randPick randNext delta s r).1.currentExpression = none →
      (exprOverlayUpdate randPick randNext delta s r).2.exprs ce = 0) := by
  unfold exprOverlayUpdate
  by_cases hdir : s.expressionFadeDir = 0
  · have hp := exprDispatch_props delta
      (exprTriggerCheck randPick randNext
        { s with expressionTimer := s.expressionTimer + delta } r) r hd0 hd1
      (exprTriggerCheck_inv randPick randNext _ r hinv)
    refine ⟨hp.1, hp.2.1, ?_, ?_, ?_⟩
    · intro hz hm
      exact absurd (hdir.symm.trans hm) (by decide)
    · intro hm
      exact absurd hdir hm
    · intro ce hm _ _
      exact absurd (hdir.symm.trans hm) (by decide)
  · have hskip : exprTriggerCheck randPick randNext
        { s with expressionTimer := s.expressionTimer + delta } r
        = { s with expressionTimer := s.expressionTimer + delta } :=
      exprTriggerCheck_skip randPick randNext _ r hdir
    rw [hskip]
    have hp := exprDispatch_props delta
      { s with expressionTimer := s.expressionTimer + delta } r hd0 hd1 hinv
    exact ⟨hp.1, hp.2.1, hp.2.2.1, fun _ => hp.2.2.2.1, fun ce => hp.2.2.2.2 ce⟩

/-- A concrete state: an ambient expression fade-in on happy just
started. -/
def exprFadeState : AnimState :=
  { baseAnimState with
      currentExpression := some exprHappy
      expressionFadeDir := 1
      expressionWeight := 0 }

/-- A concrete state: an ambient fade-out on happy almost finished. -/
def exprOutState : AnimState :=
  { baseAnimState with
      currentExpression := some exprHappy
      expressionFadeDir := -1
      expressionWeight := 1/100 }

/-- Iterate the occasional-expression step over a list of frame deltas. -/
def exprIter : List ℚ → AnimState × Rig → AnimState × Rig
  | [], sr => sr
  | d :: ds, sr => exprIter ds (exprOverlayUpdate 0 0 d sr.1 sr.2)

/-- C7 counterexample: the claim says the ambient expression weight never
exceeds its configured ceiling (0.4 in the code).  Starting a fade-in on
happy and running five frames of 0.0975 s followed by one clamped frame
of 0.1 s, the weight written to the rig is 0.47, which exceeds 0.4: the
fade-in checks the ceiling only after adding the full frame increment. -/
theorem C7_counterexample :
    (exprIter [39/400, 39/400, 39/400, 39/400, 39/400, 1/10]
        (exprFadeState, sampleRig)).2.exprs exprHappy = 47/100 ∧
    ¬ ((47:ℚ)/100 ≤ 2/5) := by
  constructor
  · norm_num [exprIter, exprOverlayUpdate, exprDispatch, exprTriggerCheck, exprFade,
      Rig.setExpr, exprFadeState, baseAnimState, sampleRig, availCandidates, min_def, max_def]
    try decide
  · norm_num

/-- C7 witness: a fade-out at weight 0.01 with a 0.1 s frame completes,
leaving the weight exactly 0 and the invariant intact. -/
theorem C7_expr_weight_amended_witness :
    (exprOverlayUpdate 0 0 (1/10) exprOutState sampleRig).1.expressionWeight = 0 ∧
    ExprInv (exprOverlayUpdate 0 0 (1/10) exprOutState sampleRig).1 :=
  have hinv : ExprInv exprOutState :=
    ⟨fun h => absurd h (by norm_num [exprOutState, baseAnimState]),
     by norm_num [exprOutState, baseAnimState]⟩
  ⟨(C7_expr_weight_amended 0 0 (1/10) exprOutState sampleRig
      (by norm_num) (by norm_num) hinv).2.2.1
      (by norm_num [exprOverlayUpdate, exprDispatch, exprTriggerCheck, exprFade,
        exprOutState, baseAnimState, sampleRig, availCandidates, max_def]) rfl,
   (C7_expr_weight_amended 0 0 (1/10) exprOutState sampleRig
      (by norm_num) (by norm_num) hinv).1⟩

-- ── Emotion overlay (C6) ──

def emExcited : String := "excited"

def emPlayful : String := "playful"

def emMischievous : String := "mischievous"

def emThoughtful : String := "thoughtful"

def emCurious : String := "curious"

def emConcerned : String := "concerned"

def emApologetic : String := "apologetic"

def emAnnoyed : String := "annoyed"

def emDisgusted : String := "disgusted"

def emPossessive : String := "possessive"

def emProtective : String := "protective"

/-- EMOTION_MAP, main.js lines 921-935, as the property-lookup function
of the literal object, none for an absent key. -/
def emotionLookup (e : String) : Option String :=
  if e = exprHappy then some exprHappy
  else if e = emExcited then some exprHappy
  else if e = emPlayful then some exprHappy
  else if e = emMischievous then some exprHappy
  else if e = exprNeutral then some exprNeutral
  else if e = emThoughtful then some exprNeutral
  else if e = emCurious then some exprNeutral
  else if e = emConcerned then some exprSad
  else if e = emApologetic then some exprSad
  else if e = emAnnoyed then some exprAngry
  else if e = emDisgusted then some exprAngry
  else if e = emPossessive then some exprAngry
  else if e = emProtective then some exprAngry
  else none

/-- The module-level emotion overlay variables, main.js lines 937-939. -/
structure EmotionState where
  currentEmotionExpression : Option String
  emotionWeight : ℚ
  targetEmotionWeight : ℚ
deriving DecidableEq

/-- setEmotion, main.js lines 941-952: map the label (falling back to
neutral), zero the previously active different expression on the rig,
and record the new expression and target weight.  No other code in the
module ever reads targetEmotionWeight or writes the new expression
weight to the rig: the inline blend announced by the comment on lines
954-956 was never added. -/
def setEmotion (emotion : String) (vrmLoaded : Bool) (es : EmotionState) (r : Rig) :
    EmotionState × Rig :=
  let expr := (emotionLookup emotion).getD exprNeutral
  if expr = exprNeutral then
    ({ es with targetEmotionWeight := 0 }, r)
  else
    let r1 :=
      match es.currentEmotionExpression with
      | some ce =>
        if ce ≠ expr ∧ vrmLoaded ∧ r.hasExpressionManager then r.setExpr ce 0 else r
      | none => r
    ({ es with currentEmotionExpression := some expr, targetEmotionWeight := 3/5 }, r1)

/-- A rig with the happy emotion expression currently lit at one half. -/
def emotionRig : Rig :=
  { sampleRig with exprs := fun n => if n = exprHappy then 1/2 else 0 }

/-- The emotion overlay before the call: happy was the active emotion. -/
def emotionPrevState : EmotionState where
  currentEmotionExpression := some exprHappy
  emotionWeight := 0
  targetEmotionWeight := 1/2

/-- C6: the claim says feeding the label annoyed sets the angry
expression weight on the rig to the fixed value and zeroes the
previously active different emotion expression in the same call.
Evaluating the code at that input: the label is mapped to angry, the
previously lit happy is indeed zeroed on the rig, and the target weight
variable becomes 0.6 — but the angry weight on the rig stays 0, because
the recorded target weight is never applied to the rig anywhere in the
module. -/
theorem C6_annoyed_never_lights_angry :
    ((setEmotion emAnnoyed true emotionPrevState emotionRig).1.currentEmotionExpression
      = some exprAngry) ∧
    ((setEmotion emAnnoyed true emotionPrevState emotionRig).1.targetEmotionWeight = 3/5) ∧
    ((setEmotion emAnnoyed true emotionPrevState emotionRig).2.exprs exprHappy = 0) ∧
    ((setEmotion emAnnoyed true emotionPrevState emotionRig).2.exprs exprAngry = 0) := by
  exact ⟨rfl, rfl, rfl, rfl⟩

-- ── Chat animations (C10) ──

/-- One chat animation entry: name, fixed duration in seconds, and an
update closure over progress; msin and mpi abstract Math.sin and
Math.PI. -/
structure ChatAnim where
  animName : String
  duration : ℚ
  update : (ℚ → ℚ) → ℚ → ℚ → PartialPose

/-- engagedLean, main.js lines 226-241. -/
def engagedLeanUpdate (msin : ℚ → ℚ) (mpi p : ℚ) : PartialPose :=
  let ease := 1 - (1 - p)^3
  { emptyPartialPose with
      hipsPosY := some 0
      hipsRotX := some ((2/25) * ease)
      spineRotX := some ((3/25) * ease)
      chestRotX := some ((1/20) * ease)
      headRotX := some (-(3/20) * ease)
      headRotY := some 0
      leftArmRotZ := some (-1)
      rightArmRotZ := some 1 }

/-- thoughtfulChin, main.js lines 244-260. -/
def thoughtfulChinUpdate (msin : ℚ → ℚ) (mpi p : ℚ) : PartialPose :=
  let ease := if p < 1/5 then p / (1/5) else if p > 4/5 then (1 - p) / (1/5) else 1
  { emptyPartialPose with
      hipsPosY := some 0
      hipsRotY := some (-(1/20) * ease)
      spineRotX := some ((1/20) * ease)
      headRotY := some ((1/10) * ease)
      headRotX := some ((2/25) * ease)
      headRotZ := some (-(1/20) * ease)
      leftArmRotZ := some (-(4/5) * ease)
      leftArmRotX := some (-(3/10) * ease)
      rightArmRotZ := some (23/20) }

/-- enthusiastic, main.js lines 264-277. -/
def enthusiasticUpdate (msin : ℚ → ℚ) (mpi p : ℚ) : PartialPose :=
  let bounce := msin (p * mpi * 2) * (1/2) + 1/2
  { emptyPartialPose with
      hipsPosY := some ((3/200) * bounce)
      hipsRotY := some 0
      spineRotX := some (-(3/100) * bounce)
      chestRotX := some ((3/100) * bounce)
      headRotX := some (-(1/20) * bounce)
      leftArmRotZ := some (-(21/20) - (1/10) * bounce)
      rightArmRotZ := some (21/20 + (1/10) * bounce) }

/-- curiousTilt, main.js lines 281-295. -/
def curiousTiltUpdate (msin : ℚ → ℚ) (mpi p : ℚ) : PartialPose :=
  let ease := if p < 3/20 then p / (3/20) else if p > 17/20 then (1 - p) / (3/20) else 1
  { emptyPartialPose with
      hipsPosY := some 0
      hipsRotY := some ((3/100) * ease)
      spineRotX := some 0
      headRotY := some (-(2/25) * ease)
      headRotX := some ((1/20) * ease)
      headRotZ := some ((3/25) * ease)
      leftArmRotZ := some (-(6/5))
      rightArmRotZ := some (11/10) }

/-- warmOpen, main.js lines 299-315. -/
def warmOpenUpdate (msin : ℚ → ℚ) (mpi p : ℚ) : PartialPose :=
  let ease := 1 - (1 - p)^2
  { emptyPartialPose with
      hipsPosY := some 0
      hipsRotY := some 0
      spineRotX := some (-(1/50) * ease)
      chestRotX := some ((1/25) * ease)
      headRotX := some (-(2/25) * ease)
      headRotY := some 0
      leftArmRotZ := some (-(21/20) - (2/25) * ease)
      rightArmRotZ := some (21/20 + (2/25) * ease)
      leftArmRotX := some ((1/20) * ease)
      rightArmRotX := some ((1/20) * ease) }

/-- CHAT_ANIMATIONS, main.js lines 224-317, in source order. -/
def CHAT_ANIMATIONS : List ChatAnim :=
  [{ animName := "engagedLean", duration := 3, update := engagedLeanUpdate },
   { animName := "thoughtfulChin", duration := 4, update := thoughtfulChinUpdate },
   { animName := "enthusiastic", duration := 5/2, update := enthusiasticUpdate },
   { animName := "curiousTilt", duration := 7/2, update := curiousTiltUpdate },
   { animName := "warmOpen", duration := 3, update := warmOpenUpdate }]

/-- The fixed duration of the chat animation at a list index (1 as an
out-of-range fallback, never reached for maintained indices). -/
def chatDuration (i : Nat) : ℚ :=
  ((CHAT_ANIMATIONS.get? i).map ChatAnim.duration).getD 1

/-- The do-while random pick of triggerChatAnimation, main.js lines
544-547: draws are consumed until one lands on an index different from
the current one (the list length is above one). -/
def pickChatIndex : List ℚ → Nat → Option Nat
  | [], _ => none
  | d :: ds, cur =>
    if Int.toNat ⌊d * (CHAT_ANIMATIONS.length : ℚ)⌋ = cur ∧ 1 < CHAT_ANIMATIONS.length then
      pickChatIndex ds cur
    else some (Int.toNat ⌊d * (CHAT_ANIMATIONS.length : ℚ)⌋)

/-- triggerChatAnimation, main.js lines 538-551: enter the chat state
with a fresh timer and a random animation different from the previous
one.  none models a draw list that never escapes the do-while. -/
def triggerChatAnimation (draws : List ℚ) (s : AnimState) : Option AnimState :=
  (pickChatIndex draws s.currentChatIndex).map (fun i =>
    { s with state := AnimMode.chat, chatTimer := 0, currentChatIndex := i })

/-- The joint-write section of updateChatAnimation, main.js lines
563-602: the chat pose overwrites every bone it names (the base idle
pose plays no part), then breathing is added onto the hips height using
the already-advanced breath phase. -/
def applyChatPose (msin : ℚ → ℚ) (breathPhase : ℚ) (pose : PartialPose) (r : Rig) : Rig :=
  let r1 := match r.hips with
    | some j => { r with hips := some { j with
        posY := jsOrOpt pose.hipsPosY 0
        rotX := jsOrOpt pose.hipsRotX 0
        rotY := jsOrOpt pose.hipsRotY 0
        rotZ := jsOrOpt pose.hipsRotZ 0 } }
    | none => r
  let r2 := match r1.spine with
    | some j => { r1 with spine := some { j with rotX := jsOrOpt pose.spineRotX 0 } }
    | none => r1
  let r3 := match r2.chest with
    | some j =>
      match pose.chestRotX with
      | some v => { r2 with chest := some { j with rotX := v } }
      | none => r2
    | none => r2
  let r4 := match r3.head with
    | some j => { r3 with head := some { j with
        rotX := jsOrOpt pose.headRotX 0
        rotY := jsOrOpt pose.headRotY 0
        rotZ := jsOrOpt pose.headRotZ 0 } }
    | none => r3
  let r5 := match r4.leftUpperArm with
    | some j => { r4 with leftUpperArm := some { j with
        rotZ := pose.leftArmRotZ.getD (-(6/5))
        rotX := jsOrOpt pose.leftArmRotX 0 } }
    | none => r4
  let r6 := match r5.rightUpperArm with
    | some j => { r5 with rightUpperArm := some { j with
        rotZ := pose.rightArmRotZ.getD (6/5) } }
    | none => r5
  match r6.hips with
    | some j => { r6 with hips := some { j with
        posY := j.posY + msin breathPhase * (3/1000) } }
    | none => r6

/-- updateChatAnimation, main.js lines 553-612: advance the chat timer,
evaluate the chat pose at clamped progress, apply it to the rig, and on
completed progress return to idle with the idle timer reset. -/
def updateChatAnimation (msin : ℚ → ℚ) (mpi delta : ℚ) (s : AnimState) (r : Rig) :
    AnimState × Rig :=
  match CHAT_ANIMATIONS.get? s.currentChatIndex with
  | none => (s, r)
  | some chatAnim =>
    let s1 := { s with chatTimer := s.chatTimer + delta }
    let progress := min (1:ℚ) (s1.chatTimer / chatAnim.duration)
    let s2 := { s1 with breathPhase := s1.breathPhase + delta * (6/5) }
    let r7 := applyChatPose msin s2.breathPhase (chatAnim.update msin mpi progress) r
    if 1 ≤ progress then
      ({ s2 with state := AnimMode.idle, idleTimer := 0 }, r7)
    else (s2, r7)

/-- The guard of handleSend, main.js lines 979-988: the chat animation is
triggered exactly when the trimmed input text is nonempty and no send is
in flight.  The argument is the already-trimmed input value. -/
def handleSendTriggersChat (trimmedText : String) (isSending : Bool) : Bool :=
  !(trimmedText.isEmpty || isSending)

def sampleMessage : String := "hello sharon"

theorem chatAnims_length : CHAT_ANIMATIONS.length = 5 := rfl

theorem pickChatIndex_ne (draws : List ℚ) (cur i : Nat)
    (h : pickChatIndex draws cur = some i) : i ≠ cur := by
  induction draws with
  | nil => exact absurd h (by simp [pickChatIndex])
  | cons d ds ih =>
    unfold pickChatIndex at h
    split_ifs at h with hc
    · exact ih h
    · have hi : Int.toNat ⌊d * (CHAT_ANIMATIONS.length : ℚ)⌋ = i := Option.some_inj.mp h
      intro hic
      exact hc ⟨hi.trans hic, by rw [chatAnims_length]; norm_num⟩

theorem chatDuration_range (i : Nat) (h : i < CHAT_ANIMATIONS.length) :
    5/2 ≤ chatDuration i ∧ chatDuration i ≤ 4 := by
  rw [chatAnims_length] at h
  interval_cases i <;> constructor <;> norm_num [chatDuration, CHAT_ANIMATIONS]

theorem updateChat_completes (msin : ℚ → ℚ) (mpi delta : ℚ) (sc : AnimState) (r : Rig)
    (hidx : sc.currentChatIndex < CHAT_ANIMATIONS.length)
    (hdone : chatDuration sc.currentChatIndex ≤ sc.chatTimer + delta) :
    (updateChatAnimation msin mpi delta sc r).1.state = AnimMode.idle ∧
    (updateChatAnimation msin mpi delta sc r).1.idleTimer = 0 := by
  unfold updateChatAnimation
  rcases hg : CHAT_ANIMATIONS.get? sc.currentChatIndex with _ | a
  · rw [List.get?_eq_none] at hg
    exact absurd hidx (not_lt.mpr hg)
  · have hdur : chatDuration sc.currentChatIndex = a.duration := by
      unfold chatDuration
      rw [hg]
      rfl
    have hpos : 0 < a.duration := by
      have := (chatDuration_range sc.currentChatIndex hidx).1
      rw [hdur] at this
      linarith
    have h1x : (1:ℚ) ≤ (sc.chatTimer + delta) / a.duration := by
      rw [le_div_iff hpos]
      rw [hdur] at hdone
      linarith
    have hmin : min (1:ℚ) ((sc.chatTimer + delta) / a.duration) = 1 := min_eq_left h1x
    constructor <;>
      simp only [hmin, hg] <;>
      rw [if_pos le_rfl]

/-- C10: sending a chat message (nonempty input, no send in flight)
triggers the chat-gesture state: the animator enters the chat state with
a fresh timer and a randomly picked animation index different from the
previous one; every chat animation has a fixed duration between 2.5 and
4 seconds; and once the elapsed chat time reaches the active animation
duration, the frame update returns the state to idle with the idle
scheduler elapsed time reset to exactly zero. -/
theorem C10_chat_gesture (draws : List ℚ) (s s2 : AnimState) (msin : ℚ → ℚ)
    (mpi delta : ℚ) (sc : AnimState) (r : Rig)
    (htrig : triggerChatAnimation draws s = some s2)
    (hidx : sc.currentChatIndex < CHAT_ANIMATIONS.length)
    (hdone : chatDuration sc.currentChatIndex ≤ sc.chatTimer + delta) :
    s2.state = AnimMode.chat ∧ s2.chatTimer = 0 ∧
    s2.currentChatIndex ≠ s.currentChatIndex ∧
    (updateChatAnimation msin mpi delta sc r).1.state = AnimMode.idle ∧
    (updateChatAnimation msin mpi delta sc r).1.idleTimer = 0 ∧
    (∀ i, i < CHAT_ANIMATIONS.length → 5/2 ≤ chatDuration i ∧ chatDuration i ≤ 4) ∧
    handleSendTriggersChat sampleMessage false = true := by
  obtain ⟨i, hpick, hmap⟩ := Option.map_eq_some.mp htrig
  have hne := pickChatIndex_ne draws s.currentChatIndex i hpick
  refine ⟨?_, ?_, ?_, (updateChat_completes msin mpi delta sc r hidx hdone).1,
    (updateChat_completes msin mpi delta sc r hidx hdone).2,
    fun i hi => chatDuration_range i hi, by simp [handleSendTriggersChat, sampleMessage]; try decide⟩
  · rw [← hmap]
  · rw [← hmap]
  · rw [← hmap]
    exact hne

/-- The state reached by the concrete trigger of the C10 witness. -/
def chatTrigState : AnimState :=
  { baseAnimState with state := AnimMode.chat, chatTimer := 0, currentChatIndex := 3 }

/-- A chat frame about to cross the 4 s duration of animation 1. -/
def chatDoneState : AnimState :=
  { baseAnimState with state := AnimMode.chat, currentChatIndex := 1, chatTimer := 39/10 }

/-- C10 witness: a draw landing on index 3 from current index 0, and a
chat frame crossing the 4 s duration of animation 1. -/
theorem C10_chat_gesture_witness :
    chatTrigState.state = AnimMode.chat ∧
    chatTrigState.currentChatIndex ≠ baseAnimState.currentChatIndex ∧
    (updateChatAnimation (fun _ => 0) 0 (1/10) chatDoneState sampleRig).1.state
      = AnimMode.idle ∧
    (updateChatAnimation (fun _ => 0) 0 (1/10) chatDoneState sampleRig).1.idleTimer = 0 :=
  have htrig : triggerChatAnimation [3/5] baseAnimState = some chatTrigState := by
    have hpick : pickChatIndex [3/5] baseAnimState.currentChatIndex = some 3 := by
      unfold pickChatIndex
      norm_num [baseAnimState, CHAT_ANIMATIONS, Int.toNat_ofNat]
      try decide
    unfold triggerChatAnimation
    rw [hpick]
    rfl
  have h := C10_chat_gesture [3/5] baseAnimState chatTrigState (fun _ => 0) 0 (1/10)
    chatDoneState sampleRig htrig
    (by rw [chatAnims_length]; norm_num [chatDoneState, baseAnimState])
    (by norm_num [chatDuration, CHAT_ANIMATIONS, chatDoneState, baseAnimState])
  ⟨h.1, h.2.2.1, h.2.2.2.1, h.2.2.2.2.1⟩

-- ── Frame driver and gaze overlay (C5) ──

/-- The delta clamp of the render loop, main.js line 819. -/
def clampDelta (d : ℚ) : ℚ := min d (1/10)

/-- updateAnimation, main.js lines 770-780: dispatch to exactly one base
driver per frame. -/
def updateAnimation (msin : ℚ → ℚ) (mpi rA rB rP rN delta : ℚ)
    (s : AnimState) (r : Rig) : Except String (AnimState × Rig) :=
  if s.state = AnimMode.twirl then updateTwirlAnimation msin mpi delta s r
  else if s.state = AnimMode.chat then Except.ok (updateChatAnimation msin mpi delta s r)
  else Except.ok (updateIdleAnimation msin rA rB rP rN delta s r)

/-- The module-level smoothed gaze variables, main.js line 784. -/
structure LookState where
  targetLookX : ℚ
  targetLookY : ℚ
deriving DecidableEq

/-- updateLookAt, main.js lines 791-806: critically damped pursuit of the
pointer, added on top of the existing head rotation.  The hasLookAt flag
models the vrm lookAt capability, which the module only reads. -/
def updateLookAt (delta mouseX mouseY : ℚ) (hasLookAt : Bool)
    (l : LookState) (r : Rig) : LookState × Rig :=
  if hasLookAt then
    let tx := l.targetLookX + (mouseX * 15 - l.targetLookX) * delta * 3
    let ty := l.targetLookY + (mouseY * 10 - l.targetLookY) * delta * 3
    let r1 := match r.head with
      | some j => { r with head := some { j with
          rotY := j.rotY + tx * (1/50)
          rotX := j.rotX + ty * (-(3/200)) } }
      | none => r
    (⟨tx, ty⟩, r1)
  else (l, r)

/-- The body of one executed frame of animate, main.js lines 813-826:
clamp the delta, run the base animation update, then the gaze overlay.
An exception in the base update aborts the frame before the gaze (and
lip-sync and render) run, matching the propagation out of animate. -/
def frameStep (msin : ℚ → ℚ) (mpi rA rB rP rN delta mouseX mouseY : ℚ)
    (hasLookAt : Bool) (s : AnimState) (l : LookState) (r : Rig) :
    Except String (AnimState × LookState × Rig) :=
  match updateAnimation msin mpi rA rB rP rN (clampDelta delta) s r with
  | Except.error e => Except.error e
  | Except.ok sr =>
    Except.ok (sr.1, (updateLookAt (clampDelta delta) mouseX mouseY hasLookAt l sr.2).1,
      (updateLookAt (clampDelta delta) mouseX mouseY hasLookAt l sr.2).2)

/-- The successful result of an Except, none on error. -/
def okPart {ε α : Type} : Except ε α → Option α
  | Except.ok a => some a
  | Except.error _ => none

theorem updateTwirl_preserves_overlays (msin : ℚ → ℚ) (mpi delta : ℚ)
    (s : AnimState) (r : Rig) (s2 : AnimState) (r2 : Rig)
    (h : updateTwirlAnimation msin mpi delta s r = Except.ok (s2, r2)) :
    s2.blinkTimer = s.blinkTimer ∧ s2.expressionTimer = s.expressionTimer ∧
    s2.blinkProgress = s.blinkProgress ∧ s2.expressionWeight = s.expressionWeight := by
  unfold updateTwirlAnimation at h
  cases hph : s.twirlPhase <;> simp only [hph] at h
  case ret =>
    split_ifs at h <;> simp at h
  all_goals
    split_ifs at h <;>
      (simp only [Except.ok.injEq, Prod.mk.injEq] at h
       obtain ⟨hs, _⟩ := h
       rw [← hs]
       exact ⟨rfl, rfl, rfl, rfl⟩)

theorem updateChat_preserves_overlays (msin : ℚ → ℚ) (mpi delta : ℚ)
    (s : AnimState) (r : Rig) :
    (updateChatAnimation msin mpi delta s r).1.blinkTimer = s.blinkTimer ∧
    (updateChatAnimation msin mpi delta s r).1.expressionTimer = s.expressionTimer ∧
    (updateChatAnimation msin mpi delta s r).1.blinkProgress = s.blinkProgress ∧
    (updateChatAnimation msin mpi delta s r).1.expressionWeight = s.expressionWeight := by
  simp only [updateChatAnimation]
  rcases hg : CHAT_ANIMATIONS.get? s.currentChatIndex with _ | a
  · exact ⟨rfl, rfl, rfl, rfl⟩
  · dsimp only
    split_ifs with hc <;> exact ⟨rfl, rfl, rfl, rfl⟩

theorem updateLookAt_formula (delta mouseX mouseY : ℚ) (l : LookState) (r : Rig) :
    (updateLookAt delta mouseX mouseY true l r).1.targetLookX
      = l.targetLookX + (mouseX * 15 - l.targetLookX) * delta * 3 ∧
    (updateLookAt delta mouseX mouseY true l r).1.targetLookY
      = l.targetLookY + (mouseY * 10 - l.targetLookY) * delta * 3 := by
  unfold updateLookAt
  exact ⟨rfl, rfl⟩

/-- C5 counterexample: the claim says the overlays (blink in particular)
run and their timers advance during the spin animation.  On the code, a
1/30 s frame executed mid-spin completes and leaves blinkTimer exactly
where it was (1), not advanced to 1 + 1/30: the blink and ambient
expression overlays live inside updateIdleAnimation, which is not called
while the twirl driver is active. -/
theorem C5_counterexample :
    (okPart (frameStep (fun _ => 0) 0 0 0 0 0 (1/30) 0 0 false
        sampleTwirlState ⟨0, 0⟩ sampleRig)).map (fun o => o.1.blinkTimer) = some 1 ∧
    sampleTwirlState.blinkTimer = 1 ∧ ((1:ℚ) ≠ 1 + 1/30) := by
  refine ⟨?_, rfl, by norm_num⟩
  norm_num [frameStep, updateAnimation, updateTwirlAnimation, updateLookAt, clampDelta,
    okPart, sampleTwirlState, baseAnimState, sampleRig, Rig.setExpr, min_def]
  try decide

/-- C5 amended: only the gaze overlay is driver-independent.  A frame
that completes while the spin (twirl) driver is active leaves the blink
and ambient-expression overlay state (timers, progress, weight)
untouched, and so does every chat-driver update; the gaze overlay, when
the rig exposes lookAt, applies its critically damped pursuit formula to
the smoothed target on every update, regardless of which driver ran. -/
theorem C5_overlays_amended (msin : ℚ → ℚ) (mpi rA rB rP rN delta mouseX mouseY : ℚ)
    (hasLookAt : Bool) (s : AnimState) (l : LookState) (r : Rig) :
    (∀ s2 l2 r2, s.state = AnimMode.twirl →
      frameStep msin mpi rA rB rP rN delta mouseX mouseY hasLookAt s l r
        = Except.ok (s2, l2, r2) →
      s2.blinkTimer = s.blinkTimer ∧ s2.expressionTimer = s.expressionTimer ∧
      s2.blinkProgress = s.blinkProgress ∧ s2.expressionWeight = s.expressionWeight) ∧
    ((updateChatAnimation msin mpi delta s r).1.blinkTimer = s.blinkTimer ∧
     (updateChatAnimation msin mpi delta s r).1.expressionTimer = s.expressionTimer ∧
     (updateChatAnimation msin mpi delta s r).1.blinkProgress = s.blinkProgress ∧
     (updateChatAnimation msin mpi delta s r).1.expressionWeight = s.expressionWeight) ∧
    ((updateLookAt delta mouseX mouseY true l r).1.targetLookX
        = l.targetLookX + (mouseX * 15 - l.targetLookX) * delta * 3 ∧
     (updateLookAt delta mouseX mouseY true l r).1.targetLookY
        = l.targetLookY + (mouseY * 10 - l.targetLookY) * delta * 3) := by
  refine ⟨?_, updateChat_preserves_overlays msin mpi delta s r,
    updateLookAt_formula delta mouseX mouseY l r⟩
  intro s2 l2 r2 hst h
  unfold frameStep at h
  unfold updateAnimation at h
  rw [if_pos hst] at h
  rcases htw : updateTwirlAnimation msin mpi (clampDelta delta) s r with e | sr
  · rw [htw] at h
    exact absurd h (by simp)
  · rw [htw] at h
    simp only [Except.ok.injEq, Prod.mk.injEq] at h
    obtain ⟨h1, _⟩ := h
    rw [← h1]
    exact updateTwirl_preserves_overlays msin mpi (clampDelta delta) s r sr.1 sr.2
      (by rw [htw])

/-- The post-frame animator state of the C5 witness evaluation. -/
def twirlFrameResult : AnimState :=
  { sampleTwirlState with twirlTimer := 8/15, twirlRotation := 0, breathPhase := 1/25 }

/-- The post-frame rig of the C5 witness evaluation. -/
def twirlFrameRig : Rig :=
  { sampleRig with
      leftUpperArm := some { rotX := 0, rotY := 0, rotZ := -(3/2), posY := 0 }
      rightUpperArm := some { rotX := 0, rotY := 0, rotZ := 3/2, posY := 0 } }

/-- C5 witness: a concrete completed twirl frame preserves the blink
timer, and the gaze formula evaluates at a concrete input. -/
theorem C5_overlays_amended_witness :
    twirlFrameResult.blinkTimer = sampleTwirlState.blinkTimer ∧
    (updateLookAt (1/30) (1/2) 0 true ⟨0, 0⟩ sampleRig).1.targetLookX
      = 0 + ((1/2) * 15 - 0) * (1/30) * 3 :=
  have heval : frameStep (fun _ => 0) 0 0 0 0 0 (1/30) 0 0 false
      sampleTwirlState ⟨0, 0⟩ sampleRig
      = Except.ok (twirlFrameResult, ⟨0, 0⟩, twirlFrameRig) := by
    norm_num [frameStep, updateAnimation, updateTwirlAnimation, updateLookAt, clampDelta,
      sampleTwirlState, baseAnimState, sampleRig, twirlFrameResult, twirlFrameRig,
      Rig.setExpr, min_def]
    try decide
  ⟨((C5_overlays_amended (fun _ => 0) 0 0 0 0 0 (1/30) 0 0 false
      sampleTwirlState ⟨0, 0⟩ sampleRig).1 twirlFrameResult ⟨0, 0⟩ twirlFrameRig
      rfl heval).1,
   ((C5_overlays_amended (fun _ => 0) 0 0 0 0 0 (1/30) (1/2) 0 false
      sampleTwirlState ⟨0, 0⟩ sampleRig).2.2.1).trans (by norm_num)⟩

end SharonWidget
